import Mathlib

/-!
Verification of the TidaLuna `playingInfo` plugin (renderer publisher,
host-side cache and HTTP command server).

Shallow embedding conventions:
* JS numbers that the code only ever uses as finite values are modelled as `ℚ`.
* A JS value that may be `undefined`/`NaN`/non-finite where the code checks for
  that (`typeof x !== "number"`, `Number.isFinite`) is modelled as `Option ℚ`
  (`none` = the check fails).
* The `duration` field of `TrackStatusPayload` is a string in the source
  (`types.ts`); the host reads it only through `Number(...)`, so the model
  stores the parse result directly: `none` when `Number(duration)` is not
  finite, `some d` when it is the finite value `d`.
* Fallible async resolvers (`await`ed promises) are modelled as
  `Except Unit α`: `Except.error ()` is a rejected promise.
-/

namespace PlayingInfo

/-- `TrackStatusPayload` from `src/plugins/playingInfo/src/types.ts`, plus the
`positionUpdatedAt` timestamp that the running code attaches to every published
payload (read with a `typeof`/`isNaN` guard on the host, hence `Option ℚ`). -/
structure TrackStatusPayload where
  album : String
  artist : String
  audioquality : String
  duration : Option ℚ
  imgurl : String
  isrc : String
  popularity : String
  releasedate : String
  title : String
  trackid : String
  status : String
  positionSeconds : ℚ
  positionUpdatedAt : Option ℚ
deriving DecidableEq

/-- Body of `getLiveTrackInfo` (server.native.ts lines 30-38) for a present
cached payload: extrapolate `positionSeconds` by the wall-clock time elapsed
since `positionUpdatedAt` when the cached status is `"PLAYING"`, clamping to
the parsed duration when that is finite and positive. Every early
`return latestTrackInfo` of the source is a branch returning `p` unchanged. -/
def extrapolatePayload (p : TrackStatusPayload) (now : ℚ) : TrackStatusPayload :=
  if p.status ≠ "PLAYING" then p
  else
    match p.positionUpdatedAt with
    | none => p
    | some updatedAt =>
      let deltaSeconds := (now - updatedAt) / 1000
      if deltaSeconds ≤ 0 then p
      else
        let nextPosition := p.positionSeconds + deltaSeconds
        let clampedPosition :=
          match p.duration with
          | some durationSeconds =>
            if 0 < durationSeconds then min nextPosition durationSeconds else nextPosition
          | none => nextPosition
        { p with positionSeconds := clampedPosition }

/-- `getLiveTrackInfo` (server.native.ts lines 28-39), with the module-level
`latestTrackInfo` cache and `Date.now()` passed explicitly:
`if (!latestTrackInfo) return undefined`, otherwise the extrapolation body. -/
def getLiveTrackInfo : Option TrackStatusPayload → ℚ → Option TrackStatusPayload
  | none, _ => none
  | some p, now => some (extrapolatePayload p now)

/-- The renderer's `PlayState.playbackControls` fields read by
`computeElapsedSeconds` (index.ts lines 223-234). `latestCurrentTime` may be
`undefined` (`?? 0`); `latestCurrentTimeSyncTimestamp` is `none` when it is not
a finite number. -/
structure PlaybackControlsState where
  latestCurrentTime : Option ℚ
  playbackState : String
  latestCurrentTimeSyncTimestamp : Option ℚ
deriving DecidableEq

/-- Renderer-side `computeElapsedSeconds` (index.ts lines 223-234).
`liveCurrentTime` is `PlayState.currentTime` (`none` when not finite). When the
delta is negative, or the sync timestamp is unusable, the source falls back to
the live player clock and only then to `baseSeconds`. -/
def computeElapsedSeconds (playbackControls : PlaybackControlsState) (now : ℚ)
    (liveCurrentTime : Option ℚ) : ℚ :=
  let baseSeconds := playbackControls.latestCurrentTime.getD 0
  if playbackControls.playbackState ≠ "PLAYING" then baseSeconds
  else
    -- Fallback to the live player clock when Redux timestamps lag behind.
    let onFallback :=
      match liveCurrentTime with
      | some livePosition => livePosition
      | none => baseSeconds
    match playbackControls.latestCurrentTimeSyncTimestamp with
    | some syncTimestamp =>
      let deltaSeconds := (now - syncTimestamp) / 1000
      if 0 ≤ deltaSeconds then baseSeconds + deltaSeconds else onFallback
    | none => onFallback

/-- `getCurrentPositionSeconds` (index.ts lines 292-296): `0` when
`PlayState.playbackControls` is unavailable. -/
def getCurrentPositionSeconds (playbackControls : Option PlaybackControlsState)
    (now : ℚ) (liveCurrentTime : Option ℚ) : ℚ :=
  match playbackControls with
  | none => 0
  | some pc => computeElapsedSeconds pc now liveCurrentTime

/-- `RemoteCommand` from server.native.ts line 6. -/
inductive RemoteCommand where
  | playtoggle
  | next
  | prev
deriving DecidableEq

/-- A present value of an express query parameter: a string, an array of
values (repeated parameter), or a nested `ParsedQs` object. An absent
parameter is `Option.none` at the use sites. -/
inductive QueryValue where
  | str (s : String)
  | arr (xs : List QueryValue)
  | obj

/-- Model of JavaScript `String.prototype.toLowerCase` restricted to ASCII
letters (the only characters the command alias table compares against). -/
def jsToLowerCase (s : String) : String :=
  String.mk (s.data.map Char.toLower)

/-- `getQueryValue` (server.native.ts lines 82-85): `value[0]` of an array
(which is `undefined` for an empty array), the value itself otherwise. -/
def getQueryValue : Option QueryValue → Option QueryValue
  | some (QueryValue.arr xs) => xs.head?
  | v => v

/-- `isInfoCommand` (server.native.ts lines 87-90): a string whose lower-case
form is `"info"`; any non-string is not an info command. -/
def isInfoCommand : Option QueryValue → Bool
  | some (QueryValue.str s) => jsToLowerCase s == "info"
  | _ => false

/-- `normalizeCommand` (server.native.ts lines 92-114): lower-case the string
and map it through the alias `switch`; non-strings and unknown tokens give
`none` (`undefined`). -/
def normalizeCommand : Option QueryValue → Option RemoteCommand
  | some (QueryValue.str value) =>
    match jsToLowerCase value with
    | "play" | "start" | "resume" | "stop" | "pause" | "halt" | "playtoggle" | "toggle" =>
      some RemoteCommand.playtoggle
    | "next" | "forward" => some RemoteCommand.next
    | "prev" | "previous" | "back" => some RemoteCommand.prev
    | _ => none
  | _ => none

/-- The query parameters of a `GET /command` request that the handler reads. -/
structure CommandQuery where
  command : Option QueryValue
  cmd : Option QueryValue
  action : Option QueryValue
  op : Option QueryValue

/-- `req.query.command ?? req.query.cmd ?? req.query.action ?? req.query.op`
(server.native.ts line 52): first present parameter wins. -/
def rawCommandValue (q : CommandQuery) : Option QueryValue :=
  q.command <|> q.cmd <|> q.action <|> q.op

/-- The JSON bodies the `/command` handler can produce. -/
inductive ResponseBody where
  | noTrackData
  | trackInfo (payload : TrackStatusPayload)
  | missingOrInvalid
  | rendererUnavailable
  | okCommand (command : RemoteCommand)
deriving DecidableEq

/-- An HTTP response: status code plus JSON body. -/
structure HttpResponse where
  statusCode : Nat
  body : ResponseBody
deriving DecidableEq

/-- The `app.get("/command")` handler (server.native.ts lines 50-73), with the
host cache, the clock and reachability of the renderer window passed
explicitly. `windowAttached` is `globalThis.luna?.tidalWindow !== undefined`,
which is exactly the condition under which `dispatchCommand` succeeds. -/
def handleCommandGet (q : CommandQuery) (latest : Option TrackStatusPayload)
    (now : ℚ) (windowAttached : Bool) : HttpResponse :=
  let commandInput := getQueryValue (rawCommandValue q)
  if isInfoCommand commandInput then
    match getLiveTrackInfo latest now with
    | none => { statusCode := 404, body := ResponseBody.noTrackData }
    | some liveTrackInfo => { statusCode := 200, body := ResponseBody.trackInfo liveTrackInfo }
  else
    match normalizeCommand commandInput with
    | none => { statusCode := 400, body := ResponseBody.missingOrInvalid }
    | some command =>
      if windowAttached then { statusCode := 200, body := ResponseBody.okCommand command }
      else { statusCode := 503, body := ResponseBody.rendererUnavailable }

/-- Split a character list at every occurrence of `sep` (model of JS
`String.prototype.split` with a single-character separator). -/
def splitOnChar (sep : Char) : List Char → List (List Char)
  | [] => [[]]
  | c :: cs =>
    let rest := splitOnChar sep cs
    if c = sep then [] :: rest
    else
      match rest with
      | r :: rs => (c :: r) :: rs
      | [] => [[c]]

/-- ASCII letter test, the `[a-z]` class of the cover regex under the `i`
flag. -/
def isAsciiLetter (c : Char) : Bool :=
  ('a' ≤ c && c ≤ 'z') || ('A' ≤ c && c ≤ 'Z')

/-- The regex `/^[0-9]+x[0-9]+\.[a-z]+$/i` of `extractCoverResourceId`
(index.ts line 209): one or more digits, `x` or `X`, one or more digits, a
literal dot, one or more ASCII letters, anchored at both ends. The character
classes are disjoint from the literals that follow them, so greedy spans
decide the regex exactly. -/
def isDimsSegment (seg : List Char) : Bool :=
  match seg.span Char.isDigit with
  | (d1, c :: r2) =>
    if d1.isEmpty then false
    else if c == 'x' || c == 'X' then
      match r2.span Char.isDigit with
      | (d2, '.' :: r4) =>
        if d2.isEmpty then false
        else
          match r4.span isAsciiLetter with
          | (ls, r5) => !ls.isEmpty && r5.isEmpty
      | _ => false
    else false
  | _ => false

/-- Model of the WHATWG `new URL(u).pathname` used by `extractCoverResourceId`
(index.ts line 204-205): require an ASCII-letter scheme, the literal `"://"`
and a non-empty host; the pathname is what follows the host up to `?`/`#`, or
`"/"` when the path is empty. `none` models the constructor throwing on a
malformed URL. -/
def parseUrlPathname (s : String) : Option String :=
  match s.data.span (fun c => c != ':') with
  | (scheme, ':' :: '/' :: '/' :: rest) =>
    if scheme.isEmpty || !scheme.all isAsciiLetter then none
    else
      match rest.span (fun c => c != '/' && c != '?' && c != '#') with
      | (host, rest2) =>
        if host.isEmpty then none
        else
          match rest2.span (fun c => c != '?' && c != '#') with
          | (path, _) => some (if path.isEmpty then "/" else String.mk path)
  | _ => none

/-- Join path segments with `"/"` (JS `Array.prototype.join("/")`). -/
def joinWithSlash : List (List Char) → List Char
  | [] => []
  | [x] => x
  | x :: xs => x ++ '/' :: joinWithSlash xs

/-- `extractCoverResourceId` (index.ts lines 201-214): on a missing or empty
cover URL (both falsy in JS) return `""`; otherwise parse the URL (a throw
gives `""`), split the pathname on `/`, drop empty segments, shift a leading
`"images"` segment, return `""` when nothing is left, pop a trailing
`WIDTHxHEIGHT.ext` segment, and join the rest with `/`. -/
def extractCoverResourceId (coverUrl : Option String) : String :=
  match coverUrl with
  | none => ""
  | some u =>
    if u = "" then ""
    else
      match parseUrlPathname u with
      | none => ""
      | some pathname =>
        let segments := (splitOnChar '/' pathname.data).filter (fun seg => !seg.isEmpty)
        let segments :=
          match segments with
          | first :: rest => if first = "images".data then rest else first :: rest
          | [] => []
        match segments with
        | [] => ""
        | _ =>
          let remaining :=
            match segments.getLast? with
            | some last => if isDimsSegment last then segments.dropLast else segments
            | none => segments
          String.mk (joinWithSlash remaining)

/-- The per-track data gathered by `logTrackDetails` (index.ts lines 144-176).
Each `await`ed resolver is `Except Unit _` (`Except.error ()` = rejected
promise); an inner `Option` is a resolver that settled without a value
(`undefined`). `popularity` is `mediaItem.tidalItem.popularity` (read
synchronously, already stringified), `id` is `String(mediaItem.id)` and
`nominalDuration` is `mediaItem.duration`. -/
structure ResolvedMediaItem where
  title : Except Unit String
  albumTitle : Except Unit (Option String)
  artistName : Except Unit (Option String)
  coverUrl : Except Unit (Option String)
  audioQuality : Except Unit String
  releaseDate : Except Unit (Option String)
  isrc : Except Unit (Option String)
  popularity : Option String
  id : String
  nominalDuration : Option ℚ

/-- `logTrackDetails` (index.ts lines 144-184) as a function from the resolved
inputs to the payload it publishes. The seven resolvers are `await`ed jointly
through `Promise.all`, so any single rejection lands in the `catch` block and
nothing is published (`none`); otherwise the payload is assembled with the
source's sentinel defaults, `status` is
`resolvePlaybackControls()?.playbackState ?? "UNKNOWN"`, and the duration is
`playbackContext?.actualDuration ?? mediaItem.duration ?? 0`. -/
def logTrackDetails (r : ResolvedMediaItem) (ctxDuration : Option ℚ)
    (playbackState : Option String) (positionSeconds : ℚ) (now : ℚ) :
    Option TrackStatusPayload :=
  match r.title, r.albumTitle, r.artistName, r.coverUrl, r.audioQuality,
      r.releaseDate, r.isrc with
  | Except.ok title, Except.ok albumTitle, Except.ok artistName, Except.ok coverUrl,
      Except.ok audioQuality, Except.ok releaseDate, Except.ok isrc =>
    let activeDurationSeconds := ctxDuration.getD (r.nominalDuration.getD 0)
    some
      { album := albumTitle.getD ""
        artist := artistName.getD ""
        audioquality := audioQuality
        duration := some activeDurationSeconds
        imgurl := extractCoverResourceId coverUrl
        isrc := isrc.getD ""
        popularity := r.popularity.getD "Unknown"
        releasedate := releaseDate.getD "Unknown"
        title := title
        trackid := r.id
        status := playbackState.getD "UNKNOWN"
        positionSeconds := positionSeconds
        positionUpdatedAt := some now }
  | _, _, _, _, _, _, _ => none

/-- The renderer-side publisher state: the held `latestTrackInfo` (index.ts
line 139) and the sequence of payloads sent on the `trackInfo` channel. -/
structure RendererState where
  latestTrackInfo : Option TrackStatusPayload
  sent : List TrackStatusPayload
deriving DecidableEq

/-- `publishTrackInfo` (index.ts lines 282-285): replace the held payload and
send it on the channel. -/
def publishTrackInfo (st : RendererState) (payload : TrackStatusPayload) : RendererState :=
  { latestTrackInfo := some payload, sent := st.sent ++ [payload] }

/-- The partial payload `{status, positionSeconds, positionUpdatedAt}` that the
`PlayState.onState` handler (index.ts lines 186-189) merges into the held
payload. -/
structure StatusUpdate where
  status : String
  positionSeconds : ℚ
  positionUpdatedAt : Option ℚ
deriving DecidableEq

/-- The spread `{...latestTrackInfo, ...partial}` for the status-update
partial: the three updated fields replace the old ones, every other field is
kept. -/
def mergeStatusUpdate (p : TrackStatusPayload) (u : StatusUpdate) : TrackStatusPayload :=
  { p with
    status := u.status
    positionSeconds := u.positionSeconds
    positionUpdatedAt := u.positionUpdatedAt }

/-- `updateTrackInfoPayload` (index.ts lines 287-290): drop the update when no
payload is held, otherwise merge and republish. -/
def updateTrackInfoPayload (st : RendererState) (partialUpdate : StatusUpdate) : RendererState :=
  match st.latestTrackInfo with
  | none => st
  | some p => publishTrackInfo st (mergeStatusUpdate p partialUpdate)

/-- The `PlayState.onState` handler (index.ts lines 186-189): compute a fresh
position and merge `{status, positionSeconds, positionUpdatedAt: now}`. -/
def onStateHandler (st : RendererState) (state : String)
    (playbackControls : Option PlaybackControlsState) (now : ℚ)
    (liveCurrentTime : Option ℚ) : RendererState :=
  updateTrackInfoPayload st
    { status := state
      positionSeconds := getCurrentPositionSeconds playbackControls now liveCurrentTime
      positionUpdatedAt := some now }

/-- The host module state touched by `stopCommandServer`: whether the `server`
global holds a listening server and whether the `trackInfo` IPC listener is
registered. -/
structure HostServerState where
  serverListening : Bool
  trackInfoListenerRegistered : Bool
deriving DecidableEq

/-- `stopCommandServer` (server.native.ts lines 126-139), returning the new
state and whether the call completed without error. With no server it returns
at once. Otherwise `server.close` is awaited (`closeSucceeds` says whether its
callback reports an error); on success the `server` global is cleared and the
`trackInfo` listener deregistered, on failure the rejection propagates before
either assignment runs. -/
def stopCommandServer (st : HostServerState) (closeSucceeds : Bool) :
    HostServerState × Bool :=
  if st.serverListening = false then (st, true)
  else if closeSucceeds then
    ({ serverListening := false, trackInfoListenerRegistered := false }, true)
  else (st, false)

/-- The command alias table as the claim states it: a case-insensitive
many-to-one map sending play/start/resume/stop/pause/halt/playtoggle/toggle to
`playtoggle`, next/forward to `next`, prev/previous/back to `prev`, and every
other string as well as every non-string to unrecognized (`none`). -/
def specCommandAlias (value : Option QueryValue) : Option RemoteCommand :=
  match value with
  | some (QueryValue.str s) =>
    let n := jsToLowerCase s
    if n = "play" ∨ n = "start" ∨ n = "resume" ∨ n = "stop" ∨ n = "pause" ∨
        n = "halt" ∨ n = "playtoggle" ∨ n = "toggle" then
      some RemoteCommand.playtoggle
    else if n = "next" ∨ n = "forward" then some RemoteCommand.next
    else if n = "prev" ∨ n = "previous" ∨ n = "back" then some RemoteCommand.prev
    else none
  | _ => none

/-- A cached payload whose position (500s) already exceeds its parsed duration
(200s) while paused: reachable because the renderer never clamps before
publishing. -/
def pausedOverrunPayload : TrackStatusPayload :=
  { album := "A", artist := "B", audioquality := "LOSSLESS", duration := some 200
    imgurl := "", isrc := "", popularity := "Unknown", releasedate := "Unknown"
    title := "T", trackid := "1", status := "PAUSED", positionSeconds := 500
    positionUpdatedAt := some 0 }

/-- Playback controls whose Redux sync timestamp (2000ms) lies in the future
of the query time used with them, so the computed delta is negative. -/
def skewedControls : PlaybackControlsState :=
  { latestCurrentTime := some 10, playbackState := "PLAYING"
    latestCurrentTimeSyncTimestamp := some 2000 }

/-- Resolved track inputs in which every resolver settles except the album
lookup, which rejects. -/
def albumRejectedItem : ResolvedMediaItem :=
  { title := Except.ok "T", albumTitle := Except.error ()
    artistName := Except.ok (some "B"), coverUrl := Except.ok none
    audioQuality := Except.ok "LOSSLESS", releaseDate := Except.ok none
    isrc := Except.ok none, popularity := none, id := "1"
    nominalDuration := some 100 }

/-- A well-formed playing payload used to instantiate universally quantified
theorems at a concrete input. -/
def samplePlayingPayload : TrackStatusPayload :=
  { album := "A", artist := "B", audioquality := "LOSSLESS", duration := some 200
    imgurl := "c", isrc := "i", popularity := "5", releasedate := "2024-01-01"
    title := "T", trackid := "1", status := "PLAYING", positionSeconds := 10
    positionUpdatedAt := some 1000 }

end PlayingInfo

namespace PlayingInfo

/-- C7: for every cached payload, the host-side info read returns the cached
payload with at most `positionSeconds` substituted; every metadata field, the
status, the duration and even the capture timestamp come back exactly as
cached — the host never fabricates or alters them. -/
theorem c7_host_read_preserves_metadata (p : TrackStatusPayload) (now : ℚ) :
    getLiveTrackInfo (some p) now = some (extrapolatePayload p now) ∧
    (extrapolatePayload p now).album = p.album ∧
    (extrapolatePayload p now).artist = p.artist ∧
    (extrapolatePayload p now).audioquality = p.audioquality ∧
    (extrapolatePayload p now).duration = p.duration ∧
    (extrapolatePayload p now).imgurl = p.imgurl ∧
    (extrapolatePayload p now).isrc = p.isrc ∧
    (extrapolatePayload p now).popularity = p.popularity ∧
    (extrapolatePayload p now).releasedate = p.releasedate ∧
    (extrapolatePayload p now).title = p.title ∧
    (extrapolatePayload p now).trackid = p.trackid ∧
    (extrapolatePayload p now).status = p.status ∧
    (extrapolatePayload p now).positionUpdatedAt = p.positionUpdatedAt := by
  refine ⟨rfl, ?_⟩
  unfold extrapolatePayload
  split
  · simp
  · split
    · simp
    · split <;> dsimp only <;> split_ifs <;> simp

/-- C4: for every `GET /command` request whose extracted token normalizes to
`"info"` case-insensitively, the handler responds 404 with the
`UNKNOWN`/`No track data` body when no payload is cached on the host, and 200
with the full cached payload whose `positionSeconds` has been extrapolated
when one is. -/
theorem c4_info_request (q : CommandQuery) (latest : Option TrackStatusPayload)
    (now : ℚ) (windowAttached : Bool)
    (h : isInfoCommand (getQueryValue (rawCommandValue q)) = true) :
    (latest = none →
      handleCommandGet q latest now windowAttached =
        { statusCode := 404, body := ResponseBody.noTrackData }) ∧
    (∀ p : TrackStatusPayload, latest = some p →
      handleCommandGet q latest now windowAttached =
        { statusCode := 200, body := ResponseBody.trackInfo (extrapolatePayload p now) }) := by
  constructor
  · intro hn
    simp [handleCommandGet, h, hn, getLiveTrackInfo]
  · intro p hp
    simp [handleCommandGet, h, hp, getLiveTrackInfo]

/-- Witness for C4: a concrete `?command=INFO` request against an empty cache
and against a cached playing payload. -/
theorem c4_info_request_witness :
    handleCommandGet ⟨some (QueryValue.str "INFO"), none, none, none⟩ none 5 true =
      { statusCode := 404, body := ResponseBody.noTrackData } ∧
    handleCommandGet ⟨some (QueryValue.str "INFO"), none, none, none⟩
        (some samplePlayingPayload) 5 true =
      { statusCode := 200,
        body := ResponseBody.trackInfo (extrapolatePayload samplePlayingPayload 5) } :=
  ⟨(c4_info_request ⟨some (QueryValue.str "INFO"), none, none, none⟩ none 5 true
      (by decide)).1 rfl,
   (c4_info_request ⟨some (QueryValue.str "INFO"), none, none, none⟩
      (some samplePlayingPayload) 5 true (by decide)).2 samplePlayingPayload rfl⟩

/-- C8: a playback-state-change event arriving before any track payload was
published is dropped entirely (held payload and sent messages unchanged); when
a payload exists, exactly `status`, `positionSeconds` and `positionUpdatedAt`
are merged into it and the merged payload is republished, all other fields
being preserved by the merge. -/
theorem c8_state_change_merge (st : RendererState) (state : String)
    (playbackControls : Option PlaybackControlsState) (now : ℚ)
    (liveCurrentTime : Option ℚ) :
    (st.latestTrackInfo = none →
      onStateHandler st state playbackControls now liveCurrentTime = st) ∧
    (∀ p : TrackStatusPayload, st.latestTrackInfo = some p →
      onStateHandler st state playbackControls now liveCurrentTime =
        { latestTrackInfo := some (mergeStatusUpdate p
            { status := state
              positionSeconds := getCurrentPositionSeconds playbackControls now liveCurrentTime
              positionUpdatedAt := some now })
          sent := st.sent ++ [mergeStatusUpdate p
            { status := state
              positionSeconds := getCurrentPositionSeconds playbackControls now liveCurrentTime
              positionUpdatedAt := some now }] }) ∧
    (∀ (p : TrackStatusPayload) (u : StatusUpdate),
      (mergeStatusUpdate p u).status = u.status ∧
      (mergeStatusUpdate p u).positionSeconds = u.positionSeconds ∧
      (mergeStatusUpdate p u).positionUpdatedAt = u.positionUpdatedAt ∧
      (mergeStatusUpdate p u).album = p.album ∧
      (mergeStatusUpdate p u).artist = p.artist ∧
      (mergeStatusUpdate p u).audioquality = p.audioquality ∧
      (mergeStatusUpdate p u).duration = p.duration ∧
      (mergeStatusUpdate p u).imgurl = p.imgurl ∧
      (mergeStatusUpdate p u).isrc = p.isrc ∧
      (mergeStatusUpdate p u).popularity = p.popularity ∧
      (mergeStatusUpdate p u).releasedate = p.releasedate ∧
      (mergeStatusUpdate p u).title = p.title ∧
      (mergeStatusUpdate p u).trackid = p.trackid) := by
  refine ⟨?_, ?_, ?_⟩
  · intro h
    simp [onStateHandler, updateTrackInfoPayload, h]
  · intro p h
    simp [onStateHandler, updateTrackInfoPayload, h, publishTrackInfo]
  · intro p u
    exact ⟨rfl, rfl, rfl, rfl, rfl, rfl, rfl, rfl, rfl, rfl, rfl, rfl, rfl⟩

/-- Witness for C8: a state change with no held payload leaves the renderer
state untouched. -/
theorem c8_state_change_merge_witness :
    onStateHandler ⟨none, []⟩ "PAUSED" none 5 none = ⟨none, []⟩ :=
  (c8_state_change_merge ⟨none, []⟩ "PAUSED" none 5 none).1 rfl

/-- C9: stopping the command server when it is not listening (never started,
or already stopped) completes without error and leaves the state unchanged;
and after any successful stop, a second stop is such a no-op. -/
theorem c9_stop_idempotent (st : HostServerState) (b b2 : Bool) :
    (st.serverListening = false → stopCommandServer st b = (st, true)) ∧
    stopCommandServer (stopCommandServer st true).1 b2 =
      ((stopCommandServer st true).1, true) := by
  constructor
  · intro h
    simp [stopCommandServer, h]
  · by_cases h : st.serverListening = false <;>
      simp [stopCommandServer, h]

/-- Witness for C9: stopping a never-started server changes nothing and
reports success. -/
theorem c9_stop_idempotent_witness :
    stopCommandServer ⟨false, false⟩ true = (⟨false, false⟩, true) :=
  (c9_stop_idempotent ⟨false, false⟩ true true).1 rfl

/-- C10: when the extracted query parameter value is an array (the parameter
was supplied several times), only its first element is used as the command
token; the handler's response is the same as for a request carrying only that
first element. -/
theorem c10_array_first_element (q : CommandQuery) (x : QueryValue)
    (xs : List QueryValue) (latest : Option TrackStatusPayload) (now : ℚ)
    (windowAttached : Bool)
    (h : rawCommandValue q = some (QueryValue.arr (x :: xs))) :
    getQueryValue (rawCommandValue q) = some x ∧
    handleCommandGet q latest now windowAttached =
      handleCommandGet ⟨some (QueryValue.arr [x]), none, none, none⟩
        latest now windowAttached := by
  constructor
  · rw [h]
    rfl
  · unfold handleCommandGet
    rw [h]
    rfl

/-- Witness for C10: `?command=next&command=prev` behaves like
`?command=next`. -/
theorem c10_array_first_element_witness :
    handleCommandGet
        ⟨some (QueryValue.arr [QueryValue.str "next", QueryValue.str "prev"]),
          none, none, none⟩ none 5 true =
      handleCommandGet ⟨some (QueryValue.arr [QueryValue.str "next"]), none, none, none⟩
        none 5 true :=
  (c10_array_first_element
    ⟨some (QueryValue.arr [QueryValue.str "next", QueryValue.str "prev"]), none, none, none⟩
    (QueryValue.str "next") [QueryValue.str "prev"] none 5 true rfl).2

/-- C6: cover-art URL normalization strips a leading `images` segment and a
trailing `WIDTHxHEIGHT.ext` segment and joins the remainder with `/`:
`"https://x/images/1280x1280.jpg"` yields `""`,
`"https://x/images/abc/640x640.jpg"` yields `"abc"`, a missing URL yields
`""`, and every URL the parser rejects yields `""`. -/
theorem c6_cover_normalization :
    extractCoverResourceId (some "https://x/images/1280x1280.jpg") = "" ∧
    extractCoverResourceId (some "https://x/images/abc/640x640.jpg") = "abc" ∧
    extractCoverResourceId none = "" ∧
    ∀ u : String, parseUrlPathname u = none → extractCoverResourceId (some u) = "" := by
  refine ⟨by decide, by decide, rfl, ?_⟩
  intro u h
  by_cases hu : u = "" <;> simp [extractCoverResourceId, hu, h]

/-- Witness for C6: the malformed URL `"not a url"` is rejected by the parser
and normalizes to the empty string. -/
theorem c6_cover_normalization_witness :
    parseUrlPathname "not a url" = none ∧
    extractCoverResourceId (some "not a url") = "" :=
  ⟨by decide, c6_cover_normalization.2.2.2 "not a url" (by decide)⟩

/-- C5: command-token normalization is the fixed case-insensitive many-to-one
total function of the claim: the eight play/pause aliases map to `playtoggle`,
next/forward to `next`, prev/previous/back to `prev`, and every other string
and every non-string input to unrecognized. -/
theorem c5_command_normalization (v : Option QueryValue) :
    normalizeCommand v = specCommandAlias v := by
  match v with
  | none => rfl
  | some QueryValue.obj => rfl
  | some (QueryValue.arr xs) => rfl
  | some (QueryValue.str s) =>
    simp only [normalizeCommand, specCommandAlias]
    generalize jsToLowerCase s = n
    split <;> simp_all

/-- Counterexample to C1 as stated: a cached payload whose duration parses to
the positive number 200 but whose cached position is 500 while paused is
returned unclamped by the host read — the estimate exceeds the duration, so
the clamp does not hold for every state and every `lastPositionSeconds`. -/
theorem c1_clamp_counterexample :
    pausedOverrunPayload.duration = some 200 ∧ (0 : ℚ) < 200 ∧
    getLiveTrackInfo (some pausedOverrunPayload) 1000000 = some pausedOverrunPayload ∧
    ¬ pausedOverrunPayload.positionSeconds ≤ 200 := by
  refine ⟨rfl, by norm_num, ?_, by norm_num [pausedOverrunPayload]⟩
  norm_num [getLiveTrackInfo, extrapolatePayload, pausedOverrunPayload]
  decide

/-- C1 amended: for every cached payload whose duration parses to a known
positive number and whose cached position does not already exceed that
duration, the position estimate returned at read time never exceeds the
duration, for every status, timestamp and elapsed wall-clock time; the clamp
`min(result, duration)` is applied on the extrapolating path and the other
paths return the cached position unchanged. -/
theorem c1_clamp_on_extrapolation (p : TrackStatusPayload) (d now : ℚ)
    (hdur : p.duration = some d) (hpos : 0 < d)
    (hle : p.positionSeconds ≤ d) :
    (extrapolatePayload p now).positionSeconds ≤ d ∧
    getLiveTrackInfo (some p) now = some (extrapolatePayload p now) := by
  refine ⟨?_, rfl⟩
  unfold extrapolatePayload
  split
  · exact hle
  · split
    · exact hle
    · dsimp only
      split_ifs with h1
      · exact hle
      · simp only [hdur]
        rw [if_pos hpos]
        exact min_le_right _ _

/-- Witness for C1 amended: the sample playing payload read far in the future
stays below its 200-second duration. -/
theorem c1_clamp_on_extrapolation_witness :
    (extrapolatePayload samplePlayingPayload 1000000000).positionSeconds ≤ 200 ∧
    getLiveTrackInfo (some samplePlayingPayload) 1000000000 =
      some (extrapolatePayload samplePlayingPayload 1000000000) :=
  c1_clamp_on_extrapolation samplePlayingPayload 200 1000000000 rfl (by norm_num)
    (by norm_num [samplePlayingPayload])

/-- Counterexample to C2 as stated: with a negative apparent elapsed time the
renderer-side estimator does not return `lastPositionSeconds` (10) unchanged —
it substitutes the live player clock (42). -/
theorem c2_negative_delta_counterexample :
    (1000 : ℚ) < 2000 ∧
    skewedControls.latestCurrentTimeSyncTimestamp = some 2000 ∧
    skewedControls.latestCurrentTime.getD 0 = 10 ∧
    computeElapsedSeconds skewedControls 1000 (some 42) = 42 ∧
    computeElapsedSeconds skewedControls 1000 (some 42) ≠
      skewedControls.latestCurrentTime.getD 0 := by
  have h : computeElapsedSeconds skewedControls 1000 (some 42) = 42 := by
    norm_num [computeElapsedSeconds, skewedControls]
  refine ⟨by norm_num, rfl, rfl, h, ?_⟩
  rw [h]
  norm_num [skewedControls]

/-- C2 amended: for a negative apparent elapsed time the host-side cache read
returns the cached payload unchanged; the renderer-side estimator never
extrapolates backward but does not return `lastPositionSeconds` either — it
falls back to the live player clock when that is finite, and only to
`lastPositionSeconds` when it is not. -/
theorem c2_negative_delta_amended :
    (∀ (p : TrackStatusPayload) (u now : ℚ), p.positionUpdatedAt = some u →
      now < u → getLiveTrackInfo (some p) now = some p) ∧
    (∀ (pc : PlaybackControlsState) (ts now : ℚ) (liveCurrentTime : Option ℚ),
      pc.playbackState = "PLAYING" → pc.latestCurrentTimeSyncTimestamp = some ts →
      now < ts →
      computeElapsedSeconds pc now liveCurrentTime =
        liveCurrentTime.getD (pc.latestCurrentTime.getD 0)) := by
  constructor
  · intro p u now hup hlt
    have hdelta : (now - u) / 1000 ≤ 0 :=
      le_of_lt (div_neg_of_neg_of_pos (by linarith) (by norm_num))
    show some (extrapolatePayload p now) = some p
    unfold extrapolatePayload
    rw [hup]
    split
    · rfl
    · dsimp only
      rw [if_pos hdelta]
  · intro pc ts now liveCurrentTime hstate hts hlt
    have hdelta : ¬ (0 ≤ (now - ts) / 1000) := by
      have : (now - ts) / 1000 < 0 :=
        div_neg_of_neg_of_pos (by linarith) (by norm_num)
      linarith
    unfold computeElapsedSeconds
    rw [hstate, hts]
    rw [if_neg (by simp)]
    dsimp only
    rw [if_neg hdelta]
    cases liveCurrentTime <;> rfl

/-- Witness for C2 amended: a cached payload read before its own capture time
comes back unchanged, and the skewed renderer controls fall back to the live
clock. -/
theorem c2_negative_delta_amended_witness :
    getLiveTrackInfo (some samplePlayingPayload) 5 = some samplePlayingPayload ∧
    computeElapsedSeconds skewedControls 1000 (some 42) =
      (some (42 : ℚ)).getD (skewedControls.latestCurrentTime.getD 0) :=
  ⟨c2_negative_delta_amended.1 samplePlayingPayload 1000 5 rfl (by norm_num),
   c2_negative_delta_amended.2 skewedControls 2000 1000 (some 42) rfl rfl (by norm_num)⟩

/-- Counterexample to C3 as stated: the rejection of the album resolution
alone (all other fields resolve) suppresses publishing for the track — the
fields are not independently fallible, because they are awaited jointly. -/
theorem c3_single_failure_counterexample :
    logTrackDetails albumRejectedItem none (some "PLAYING") 0 0 = none := rfl

/-- C3 amended: a resolution step that settles without a value degrades to the
empty string or the `Unknown` sentinel and never aborts snapshot construction
or suppresses publishing; but the steps are awaited jointly, so a step that
rejects suppresses publishing for the whole track (the counterexample), and
only the all-settled case publishes. -/
theorem c3_absent_fields_degrade (title : String)
    (albumTitle artistName coverUrl releaseDate isrcValue : Option String)
    (audioQuality : String) (popularity : Option String) (trackId : String)
    (nominalDuration ctxDuration : Option ℚ) (playbackState : Option String)
    (positionSeconds now : ℚ) :
    logTrackDetails
      { title := Except.ok title, albumTitle := Except.ok albumTitle
        artistName := Except.ok artistName, coverUrl := Except.ok coverUrl
        audioQuality := Except.ok audioQuality, releaseDate := Except.ok releaseDate
        isrc := Except.ok isrcValue, popularity := popularity, id := trackId
        nominalDuration := nominalDuration } ctxDuration playbackState
      positionSeconds now =
    some
      { album := albumTitle.getD "", artist := artistName.getD ""
        audioquality := audioQuality
        duration := some (ctxDuration.getD (nominalDuration.getD 0))
        imgurl := extractCoverResourceId coverUrl, isrc := isrcValue.getD ""
        popularity := popularity.getD "Unknown"
        releasedate := releaseDate.getD "Unknown", title := title
        trackid := trackId, status := playbackState.getD "UNKNOWN"
        positionSeconds := positionSeconds, positionUpdatedAt := some now } := rfl

end PlayingInfo
